import Mathlib

/-!
# Verification of the request-interception proxy
  (shell/browser/net/proxying_url_loader_factory.cc)

This development gives a shallow embedding of the per-request state machine
(`InProgressRequest`) and of the factory (`ProxyingURLLoaderFactory`) from
`shell/browser/net/proxying_url_loader_factory.cc`, and proves properties of
the embedded functions.

Modelling conventions:
* Mojo bindings / pipes are modelled by `Bool` flags (`…Bound`, `…Paused`).
* Outbound calls (to the issuer's `URLLoaderClient`, to the transport's
  factory and loader, to the WebRequest listener API, and stored mojo
  callbacks) are recorded as an ordered `List Action` returned next to the
  mutated record, instead of being performed as side effects.
* The listener/policy engine (`WebRequestAPI`, an external collaborator) is
  modelled as an oracle structure holding the synchronous result of each
  hook and the values it writes through its out-parameters.
* `net::HttpRequestHeaders` and `net::HttpResponseHeaders` are modelled as
  association lists of name/value pairs (exact-case name matching).
* `GURL` is its spec string; `url::Origin` keeps just enough structure for
  the same-origin checks of `HandleBeforeRequestRedirect`.
* Deleting a request ("Deletes |this|" via `RemoveRequest`) is recorded as a
  `removeRequest` action, which the factory layer interprets by erasing the
  entry from its maps.
-/

namespace ElectronNet

/-! ## Error codes (net_error_list.h values used by the source) -/

def netOK : Int := 0

def netErrIoPending : Int := -1

def netErrAborted : Int := -3

def netErrBlockedByClient : Int := -20

/-! ## URLs and origins -/

/-- A `GURL`, kept as its spec string. -/
structure GURL where
  spec : String
deriving DecidableEq, Repr

/-- Characters of a spec up to the first colon: the URL scheme. -/
def takeUntilColon : List Char → List Char
  | [] => []
  | c :: cs => if c = ':' then [] else c :: takeUntilColon cs

/-- Characters after the first "://" separator. -/
def afterSchemeSep : List Char → List Char
  | ':' :: '/' :: '/' :: rest => rest
  | _ :: rest => afterSchemeSep rest
  | [] => []

/-- Characters up to the first slash: the host part of what follows "://". -/
def takeUntilSlash : List Char → List Char
  | [] => []
  | c :: cs => if c = '/' then [] else c :: takeUntilSlash cs

def GURL.scheme (g : GURL) : String := ⟨takeUntilColon g.spec.data⟩

def GURL.isEmpty (g : GURL) : Bool := g.spec == ""

def GURL.empty : GURL := ⟨""⟩

/-- A `url::Origin`: either the unique opaque origin (as produced by the
default constructor `url::Origin()`) or a scheme/host tuple origin. -/
inductive Origin where
  | originNull : Origin
  | originTuple : String → Origin
deriving DecidableEq, Repr

/-- `url::Origin::Create` on a GURL, keeping scheme and host. -/
def Origin.create (g : GURL) : Origin :=
  .originTuple (String.mk (takeUntilColon g.spec.data) ++ "://"
    ++ String.mk (takeUntilSlash (afterSchemeSep g.spec.data)))

/-- `url::Origin::IsSameOriginWith`: opaque origins are same-origin with
nothing. -/
def Origin.isSameOriginWith : Origin → Origin → Bool
  | .originTuple a, .originTuple b => a == b
  | _, _ => false

/-! ## Request and response headers -/

/-- `net::HttpRequestHeaders`: name/value pairs, unique names intended. -/
structure HttpRequestHeaders where
  entries : List (String × String)
deriving DecidableEq, Repr

def HttpRequestHeaders.emptyHeaders : HttpRequestHeaders := ⟨[]⟩

def HttpRequestHeaders.removeHeader (h : HttpRequestHeaders) (name : String) :
    HttpRequestHeaders :=
  ⟨h.entries.filter (fun p => p.1 != name)⟩

def HttpRequestHeaders.getHeader (h : HttpRequestHeaders) (name : String) :
    Option String :=
  (h.entries.find? (fun p => p.1 == name)).map Prod.snd

def HttpRequestHeaders.setHeader (h : HttpRequestHeaders) (name value : String) :
    HttpRequestHeaders :=
  ⟨(h.entries.filter (fun p => p.1 != name)) ++ [(name, value)]⟩

/-- `MergeFrom`: `SetHeader` for each entry of `other`, in order. -/
def HttpRequestHeaders.mergeFrom (h other : HttpRequestHeaders) :
    HttpRequestHeaders :=
  other.entries.foldl (fun acc p => acc.setHeader p.1 p.2) h

/-- `net::HttpResponseHeaders`: status code plus name/value pairs. -/
structure HttpResponseHeaders where
  responseCode : Nat
  entries : List (String × String)
deriving DecidableEq, Repr

def HttpResponseHeaders.getHeader (h : HttpResponseHeaders) (name : String) :
    Option String :=
  (h.entries.find? (fun p => p.1 == name)).map Prod.snd

/-- `HttpResponseHeaders::IsRedirect`: a 301/302/303/307/308 status with a
Location header; yields the location. -/
def HttpResponseHeaders.isRedirectLocation (h : HttpResponseHeaders) :
    Option String :=
  if h.responseCode = 301 ∨ h.responseCode = 302 ∨ h.responseCode = 303 ∨
      h.responseCode = 307 ∨ h.responseCode = 308 then
    h.getHeader "Location"
  else none

/-! ## Requests, response heads, redirect info -/

/-- The mutable `network::ResourceRequest` snapshot (the fields this source
reads or writes). -/
structure ResourceRequest where
  url : GURL
  method : String
  headers : HttpRequestHeaders
  requestBody : Option String
  requestInitiator : Option Origin
  siteForCookies : GURL
  referrer : GURL
  referrerPolicy : Nat
deriving DecidableEq, Repr

/-- `network::mojom::URLResponseHead` (the fields this source touches). -/
structure URLResponseHead where
  headers : Option HttpResponseHeaders
  encodedDataLength : Int
deriving DecidableEq, Repr

/-- `URLResponseHead::New()`: null headers. -/
def URLResponseHead.new : URLResponseHead := ⟨none, 0⟩

/-- `net::RedirectInfo`. -/
structure RedirectInfo where
  statusCode : Nat
  newMethod : String
  newUrl : GURL
  newSiteForCookies : GURL
  newReferrer : String
  newReferrerPolicy : Nat
deriving DecidableEq, Repr

/-- `network::URLLoaderCompletionStatus` (only the error code matters here). -/
structure URLLoaderCompletionStatus where
  errorCode : Int
deriving DecidableEq, Repr

/-! ## The listener / policy-engine oracle -/

/-- Oracle for the `WebRequestAPI` collaborator: the synchronous result each
hook returns and the values it writes through its out-parameters.  The
`hasExtraHeadersListenerForRequest` field expresses the spec's condition "at
least one active listener requires full (non-extra) header visibility"; the
source only mentions that check inside a TODO comment and hard-codes `false`
in its place, so the embedded code never reads this field. -/
structure WebRequestApi where
  hasListener : Bool
  hasExtraHeadersListenerForRequest : Bool
  beforeRequestResult : Int
  beforeRequestRedirectUrl : GURL
  beforeSendHeadersResult : Int
  headersReceivedResult : Int
  headersReceivedOverride : Option HttpResponseHeaders
  headersReceivedRedirectUrl : GURL
deriving DecidableEq, Repr

/-- The factory-level fields an `InProgressRequest` reads through
`factory_`. -/
structure FactoryCtx where
  api : WebRequestApi
  urlLoaderHeaderClientBound : Bool
  targetFactoryBound : Bool
  shouldEnableOutOfBlinkCors : Bool
deriving DecidableEq, Repr

/-! ## Recorded outbound calls -/

/-- `FollowRedirectParams` buffered by `FollowRedirect` when the header
client is not in use. -/
structure FollowRedirectParams where
  removedHeaders : List String
  modifiedHeaders : HttpRequestHeaders
  newUrl : Option GURL
deriving DecidableEq, Repr

/-- Every outbound call the request machinery performs, in order. -/
inductive Action where
  | clientOnComplete (errorCode : Int)
  | clientOnReceiveResponse (head : URLResponseHead)
  | clientOnReceiveRedirect (redirectInfo : RedirectInfo) (head : URLResponseHead)
  | apiOnBeforeRequest
  | apiOnBeforeSendHeaders
  | apiOnSendHeaders (headers : HttpRequestHeaders)
  | apiOnHeadersReceived
  | apiOnResponseStarted
  | apiOnBeforeRedirect (newUrl : GURL)
  | apiOnCompleted (errorCode : Int)
  | apiOnErrorOccurred (errorCode : Int)
  | targetCreateLoaderAndStart (useHeaderClientOption : Bool) (request : ResourceRequest)
  | targetFollowRedirect (removed : List String) (modified : HttpRequestHeaders)
      (newUrl : Option GURL)
  | runOnBeforeSendHeadersCallback (errorCode : Int) (headers : Option HttpRequestHeaders)
  | runOnHeadersReceivedCallback (errorCode : Int) (headers : Option HttpResponseHeaders)
      (redirect : GURL)
  | passthroughToTarget (request : ResourceRequest)
  | interceptedHandlerRun (scheme : String)
  | asarLoaderStart
  | removeRequest (networkServiceRequestId : Nat) (requestId : Nat)
deriving DecidableEq, Repr

/-- Calls that reach the transport (target factory or target loader). -/
def Action.isTransportCall : Action → Bool
  | .targetCreateLoaderAndStart _ _ => true
  | .targetFollowRedirect _ _ _ => true
  | _ => false

/-- Terminal completion events delivered to the issuer, with their codes. -/
def terminalEvents (acts : List Action) : List Int :=
  acts.filterMap fun a =>
    match a with
    | .clientOnComplete c => some c
    | _ => none

/-! ## The per-request record -/

/-- Minimal model of `extensions::WebRequestInfo` (rebuilt by
`UpdateRequestInfo`): the request URL, and the initiator which is always the
preserved original one. -/
structure WebRequestInfo where
  url : GURL
  requestInitiator : Option Origin
deriving DecidableEq, Repr

/-- The `InProgressRequest` state. -/
structure InProgressRequest where
  requestId : Nat
  routingId : Nat
  networkServiceRequestId : Nat
  request : ResourceRequest
  originalInitiator : Option Origin
  info : Option WebRequestInfo
  currentResponse : URLResponseHead
  requestCompleted : Bool
  currentRequestUsesHeaderClient : Bool
  hasAnyExtraHeadersListeners : Bool
  redirectUrl : GURL
  overrideHeaders : Option HttpResponseHeaders
  pendingFollowRedirectParams : Option FollowRedirectParams
  targetLoaderBound : Bool
  proxiedClientBound : Bool
  proxiedClientPaused : Bool
  headerClientBound : Bool
  headerClientPaused : Bool
deriving DecidableEq, Repr

/-- The `InProgressRequest` constructor.  `request_completed_` has its
initializer in the class header (outside this translation unit); it starts
`false` and is in any case assigned by `RestartInternal` before any use.
`has_any_extra_headers_listeners_` is initialized to `false` (with a TODO to
wire it to the listener registry). -/
def mkInProgressRequest (webRequestId routingId networkServiceRequestId : Nat)
    (request : ResourceRequest) : InProgressRequest :=
  { requestId := webRequestId
    routingId := routingId
    networkServiceRequestId := networkServiceRequestId
    request := request
    originalInitiator := request.requestInitiator
    info := none
    currentResponse := URLResponseHead.new
    requestCompleted := false
    currentRequestUsesHeaderClient := false
    hasAnyExtraHeadersListeners := false
    redirectUrl := GURL.empty
    overrideHeaders := none
    pendingFollowRedirectParams := none
    targetLoaderBound := false
    proxiedClientBound := false
    proxiedClientPaused := false
    headerClientBound := false
    headerClientPaused := false }

/-! ## The state-machine functions, translated one-for-one -/

/-- The header-mode computation at the end of `UpdateRequestInfo`:
`url_loader_header_client_receiver_.is_bound() && network_service_request_id_ != 0
&& false /* TODO(zcbenz): HasExtraHeadersListenerForRequest */`.
The third conjunct is the hard-coded `false` placeholder from the source. -/
def computeUsesHeaderClient (f : FactoryCtx) (networkServiceRequestId : Nat) : Bool :=
  f.urlLoaderHeaderClientBound && (networkServiceRequestId != 0) && false

/-- `UpdateRequestInfo`: rebuild `info_` from the current request (with the
original initiator restored) and recompute the header mode. -/
def updateRequestInfo (f : FactoryCtx) (r : InProgressRequest) : InProgressRequest :=
  { r with
      info := some { url := r.request.url, requestInitiator := r.originalInitiator }
      currentRequestUsesHeaderClient := computeUsesHeaderClient f r.networkServiceRequestId }

/-- `OnRequestError`: deliver the error completion and notify the listener
unless the record is already completed, then always deregister. -/
def onRequestError (status : URLLoaderCompletionStatus) (r : InProgressRequest) :
    InProgressRequest × List Action :=
  let acts : List Action :=
    if r.requestCompleted then []
    else [.clientOnComplete status.errorCode, .apiOnErrorOccurred status.errorCode]
  (r, acts ++ [.removeRequest r.networkServiceRequestId r.requestId])

/-- `OnComplete`: non-OK statuses route to the error finalize; OK delivers
the success completion, notifies the listener, then deregisters. -/
def onComplete (status : URLLoaderCompletionStatus) (r : InProgressRequest) :
    InProgressRequest × List Action :=
  if status.errorCode ≠ netOK then onRequestError status r
  else
    (r, [.clientOnComplete status.errorCode, .apiOnCompleted status.errorCode,
         .removeRequest r.networkServiceRequestId r.requestId])

/-- Resume the proxied client binding when it is bound. -/
def resumeProxiedClient (r : InProgressRequest) : InProgressRequest :=
  if r.proxiedClientBound then { r with proxiedClientPaused := false } else r

/-- `ContinueToBeforeRedirect`: notify the listener, forward the redirect to
the issuer, then rewrite the request snapshot per the redirect instructions;
a method change to GET drops the request body; the leg is marked complete. -/
def continueToBeforeRedirect (f : FactoryCtx) (redirectInfo : RedirectInfo)
    (errorCode : Int) (r : InProgressRequest) : InProgressRequest × List Action :=
  if errorCode ≠ netOK then onRequestError ⟨errorCode⟩ r
  else
    let r := resumeProxiedClient r
    let acts : List Action :=
      [.apiOnBeforeRedirect redirectInfo.newUrl,
       .clientOnReceiveRedirect redirectInfo r.currentResponse]
    let newReq :=
      { r.request with
          url := redirectInfo.newUrl
          method := redirectInfo.newMethod
          siteForCookies := redirectInfo.newSiteForCookies
          referrer := ⟨redirectInfo.newReferrer⟩
          referrerPolicy := redirectInfo.newReferrerPolicy }
    let newReq :=
      if newReq.method = "GET" then { newReq with requestBody := none } else newReq
    ({ r with request := newReq, requestCompleted := true }, acts)

/-- `HandleBeforeRequestRedirect`: tear down the transport-facing channels,
fabricate a 307 internal-redirect response (with either the initiator
adjustment or the legacy permissive-CORS headers, by capability flag), and
feed it through the before-redirect finalize. -/
def handleBeforeRequestRedirect (f : FactoryCtx) (r : InProgressRequest) :
    InProgressRequest × List Action :=
  let r := { r with proxiedClientBound := false, headerClientBound := false,
                    targetLoaderBound := false }
  let redirectInfo : RedirectInfo :=
    { statusCode := 307
      newMethod := r.request.method
      newUrl := r.redirectUrl
      newSiteForCookies := r.redirectUrl
      newReferrer := ""
      newReferrerPolicy := 0 }
  let corsExtraEntries : List (String × String) :=
    if f.shouldEnableOutOfBlinkCors then []
    else
      match r.request.headers.getHeader "Origin" with
      | some httpOrigin =>
          [("Access-Control-Allow-Origin", httpOrigin),
           ("Access-Control-Allow-Credentials", "true")]
      | none => []
  let newInitiator : Option Origin :=
    if f.shouldEnableOutOfBlinkCors then
      match r.request.requestInitiator with
      | some initiator =>
          if ¬ ((Origin.create r.redirectUrl).isSameOriginWith
                  (Origin.create r.request.url) = true) ∧
             ¬ (initiator.isSameOriginWith (Origin.create r.request.url) = true) then
            some Origin.originNull
          else some initiator
      | none => none
    else r.request.requestInitiator
  let entries : List (String × String) :=
    ("Location", r.redirectUrl.spec) ::
    ("Non-Authoritative-Reason", "WebRequest API") :: corsExtraEntries
  let head : URLResponseHead :=
    { headers := some { responseCode := 307, entries := entries }
      encodedDataLength := 0 }
  let r := { r with
      request := { r.request with requestInitiator := newInitiator }
      currentResponse := head }
  continueToBeforeRedirect f redirectInfo netOK r

/-- `ContinueToStartRequest`: a pending before-request redirect (header-client
mode) short-circuits to the synthetic redirect; otherwise resume the bindings
and, when no target loader is bound yet, create it and issue the real
request. -/
def continueToStartRequest (f : FactoryCtx) (errorCode : Int)
    (r : InProgressRequest) : InProgressRequest × List Action :=
  if errorCode ≠ netOK then onRequestError ⟨errorCode⟩ r
  else if r.currentRequestUsesHeaderClient = true ∧ r.redirectUrl.isEmpty = false then
    handleBeforeRequestRedirect f r
  else
    let r := resumeProxiedClient r
    let r := if r.headerClientBound then { r with headerClientPaused := false } else r
    if r.targetLoaderBound = false ∧ f.targetFactoryBound = true then
      let r := { r with targetLoaderBound := true, proxiedClientBound := true }
      (r, [.targetCreateLoaderAndStart r.hasAnyExtraHeadersListeners r.request])
    else (r, [])

/-- `ContinueToSendHeaders`: in header-client mode run the stored
`OnBeforeSendHeaders` callback; otherwise merge listener header mutations
into any buffered follow-redirect parameters and forward them to the target
loader; then the `OnSendHeaders` notification fires, and outside header-client
mode the pipeline proceeds to `ContinueToStartRequest`. -/
def continueToSendHeaders (f : FactoryCtx) (removedHeaders : List String)
    (setHeaders : List String) (errorCode : Int) (r : InProgressRequest) :
    InProgressRequest × List Action :=
  if errorCode ≠ netOK then onRequestError ⟨errorCode⟩ r
  else
    let step :=
      if r.currentRequestUsesHeaderClient then
        (r, [Action.runOnBeforeSendHeadersCallback errorCode (some r.request.headers)])
      else
        match r.pendingFollowRedirectParams with
        | some params =>
            let params :=
              { params with removedHeaders := params.removedHeaders ++ removedHeaders }
            let params := setHeaders.foldl
              (fun p name =>
                match r.request.headers.getHeader name with
                | some v => { p with modifiedHeaders := p.modifiedHeaders.setHeader name v }
                | none => p)  -- NOTREACHED in the source
              params
            let acts : List Action :=
              if r.targetLoaderBound then
                [.targetFollowRedirect params.removedHeaders params.modifiedHeaders
                   params.newUrl]
              else []
            ({ r with pendingFollowRedirectParams := none }, acts)
        | none => (r, [])
    let r := resumeProxiedClient step.1
    let acts := step.2 ++ [Action.apiOnSendHeaders r.request.headers]
    if r.currentRequestUsesHeaderClient = false then
      let next := continueToStartRequest f netOK r
      (next.1, acts ++ next.2)
    else (r, acts)

/-- `ContinueToBeforeSendHeaders`: a pending before-request redirect (sniffing
mode) short-circuits to the synthetic redirect; otherwise the
`OnBeforeSendHeaders` listener hook runs with proceed / cancel / pending
semantics. -/
def continueToBeforeSendHeaders (f : FactoryCtx) (errorCode : Int)
    (r : InProgressRequest) : InProgressRequest × List Action :=
  if errorCode ≠ netOK then onRequestError ⟨errorCode⟩ r
  else if r.currentRequestUsesHeaderClient = false ∧ r.redirectUrl.isEmpty = false then
    handleBeforeRequestRedirect f r
  else
    let r := resumeProxiedClient r
    let result := f.api.beforeSendHeadersResult
    if result = netErrBlockedByClient then
      let e := onRequestError ⟨result⟩ r
      (e.1, Action.apiOnBeforeSendHeaders :: e.2)
    else if result = netErrIoPending then
      let r := if r.proxiedClientBound then { r with proxiedClientPaused := true } else r
      (r, [.apiOnBeforeSendHeaders])
    else
      let next := continueToSendHeaders f [] [] netOK r
      (next.1, Action.apiOnBeforeSendHeaders :: next.2)

/-- `RestartInternal`: reset the per-leg completion flag, clear any previous
redirect decision, and invoke the `OnBeforeRequest` hook; cancel finalizes
with an error, pending pauses the bindings, proceed continues into the
mode-dependent next phase. -/
def restartInternal (f : FactoryCtx) (r : InProgressRequest) :
    InProgressRequest × List Action :=
  let r := { r with requestCompleted := false, redirectUrl := GURL.empty }
  let result := f.api.beforeRequestResult
  if result = netErrBlockedByClient then
    let e := onRequestError ⟨result⟩ r
    (e.1, Action.apiOnBeforeRequest :: e.2)
  else if result = netErrIoPending then
    let r := if r.proxiedClientBound then { r with proxiedClientPaused := true } else r
    let r := if r.headerClientBound then { r with headerClientPaused := true } else r
    (r, [.apiOnBeforeRequest])
  else
    let r := { r with redirectUrl := f.api.beforeRequestRedirectUrl }
    let next :=
      if r.currentRequestUsesHeaderClient then continueToStartRequest f netOK r
      else continueToBeforeSendHeaders f netOK r
    (next.1, Action.apiOnBeforeRequest :: next.2)

/-- `Restart`: `UpdateRequestInfo` then `RestartInternal`. -/
def restart (f : FactoryCtx) (r : InProgressRequest) :
    InProgressRequest × List Action :=
  restartInternal f (updateRequestInfo f r)

/-- `FollowRedirect` (issuer-driven): apply the issuer's URL override and
header removals/additions to the snapshot, recompute the header mode, then
either forward the redirect instruction to the target loader immediately
(header-client mode) or buffer it for the next send-headers phase; finally
restart the pipeline from before-request. -/
def followRedirect (f : FactoryCtx) (removedHeaders : List String)
    (modifiedHeaders : HttpRequestHeaders) (newUrl : Option GURL)
    (r : InProgressRequest) : InProgressRequest × List Action :=
  let r :=
    match newUrl with
    | some u => { r with request := { r.request with url := u } }
    | none => r
  let r := { r with request := { r.request with
      headers := (removedHeaders.foldl HttpRequestHeaders.removeHeader
        r.request.headers).mergeFrom modifiedHeaders } }
  let r := updateRequestInfo f r
  let step :=
    if r.targetLoaderBound then
      if r.currentRequestUsesHeaderClient then
        (r, [Action.targetFollowRedirect removedHeaders modifiedHeaders newUrl])
      else
        let params : FollowRedirectParams :=
          { removedHeaders := removedHeaders, modifiedHeaders := modifiedHeaders,
            newUrl := newUrl }
        ({ r with pendingFollowRedirectParams := some params }, ([] : List Action))
    else (r, [])
  let next := restartInternal f step.1
  (next.1, step.2 ++ next.2)

/-- `ContinueToHandleOverrideHeaders`: run the stored `OnHeadersReceived`
callback with any listener-supplied override headers; in header-client mode
the override also replaces the captured response headers (so later main-event
processing keeps the Set-Cookie data). -/
def continueToHandleOverrideHeaders (f : FactoryCtx) (errorCode : Int)
    (r : InProgressRequest) : InProgressRequest × List Action :=
  if errorCode ≠ netOK then onRequestError ⟨errorCode⟩ r
  else
    let headersOut : Option HttpResponseHeaders := r.overrideHeaders
    let r :=
      match r.overrideHeaders with
      | some oh =>
          if r.currentRequestUsesHeaderClient then
            { r with currentResponse := { r.currentResponse with headers := some oh } }
          else r
      | none => r
    let acts : List Action :=
      [.runOnHeadersReceivedCallback netOK headersOut r.redirectUrl]
    let r := { r with overrideHeaders := none }
    let r := resumeProxiedClient r
    (r, acts)

/-- `ContinueToResponseStarted`: listener override headers replace the
response headers; an override that constitutes a redirect is rerouted through
the before-redirect finalize as a synthetic redirect (tearing down the
transport-facing channels); otherwise the response is forwarded to the
issuer. -/
def continueToResponseStarted (f : FactoryCtx) (errorCode : Int)
    (r : InProgressRequest) : InProgressRequest × List Action :=
  if errorCode ≠ netOK then onRequestError ⟨errorCode⟩ r
  else
    let r :=
      match r.overrideHeaders with
      | some oh => { r with currentResponse := { r.currentResponse with headers := some oh } }
      | none => r
    match r.overrideHeaders.bind
        (fun oh => oh.isRedirectLocation.map (fun loc => (oh, loc))) with
    | some (oh, loc) =>
        let newUrl : GURL := ⟨loc⟩
        let redirectInfo : RedirectInfo :=
          { statusCode := oh.responseCode
            newMethod := r.request.method
            newUrl := newUrl
            newSiteForCookies := newUrl
            newReferrer := ""
            newReferrerPolicy := 0 }
        let r := { r with proxiedClientBound := false, headerClientBound := false,
                          targetLoaderBound := false }
        continueToBeforeRedirect f redirectInfo netOK r
    | none =>
        let r := { r with proxiedClientPaused := false }
        (r, [.apiOnResponseStarted, .clientOnReceiveResponse r.currentResponse])

/-- The continuation handed to `HandleResponseOrRedirectHeaders`. -/
inductive HeadersPhaseCont where
  | toResponseStarted
  | toBeforeRedirect (redirectInfo : RedirectInfo)
  | toHandleOverrideHeaders
deriving DecidableEq, Repr

def runHeadersPhaseCont (f : FactoryCtx) (c : HeadersPhaseCont) (errorCode : Int)
    (r : InProgressRequest) : InProgressRequest × List Action :=
  match c with
  | .toResponseStarted => continueToResponseStarted f errorCode r
  | .toBeforeRedirect redirectInfo => continueToBeforeRedirect f redirectInfo errorCode r
  | .toHandleOverrideHeaders => continueToHandleOverrideHeaders f errorCode r

/-- `HandleResponseOrRedirectHeaders`: clear the per-phase redirect/override
state, run the `OnHeadersReceived` hook (which may supply override headers
and a redirect URL), with proceed / cancel / pending semantics. -/
def handleResponseOrRedirectHeaders (f : FactoryCtx) (c : HeadersPhaseCont)
    (r : InProgressRequest) : InProgressRequest × List Action :=
  let r := { r with overrideHeaders := none, redirectUrl := GURL.empty }
  let result := f.api.headersReceivedResult
  if result = netErrBlockedByClient then
    let e := onRequestError ⟨result⟩ r
    (e.1, Action.apiOnHeadersReceived :: e.2)
  else if result = netErrIoPending then
    ({ r with proxiedClientPaused := true }, [.apiOnHeadersReceived])
  else
    let r := { r with overrideHeaders := f.api.headersReceivedOverride,
                      redirectUrl := f.api.headersReceivedRedirectUrl }
    let next := runHeadersPhaseCont f c netOK r
    (next.1, Action.apiOnHeadersReceived :: next.2)

/-- `OnReceiveResponse`: in header-client mode keep the headers captured from
the `OnHeadersReceived` side channel (they contain Set-Cookie, stripped from
this event) and finalize; otherwise take this event's headers through the
headers-received hook. -/
def onReceiveResponse (f : FactoryCtx) (head : URLResponseHead)
    (r : InProgressRequest) : InProgressRequest × List Action :=
  if r.currentRequestUsesHeaderClient then
    let saved := r.currentResponse.headers
    let r := { r with currentResponse := { head with headers := saved } }
    continueToResponseStarted f netOK r
  else
    let r := { r with currentResponse := head }
    handleResponseOrRedirectHeaders f .toResponseStarted r

/-- `OnReceiveRedirect`: as for responses, but an HSTS-style redirect may
arrive with no previously captured side-channel headers, in which case this
event's own headers are kept. -/
def onReceiveRedirect (f : FactoryCtx) (redirectInfo : RedirectInfo)
    (head : URLResponseHead) (r : InProgressRequest) :
    InProgressRequest × List Action :=
  if r.currentRequestUsesHeaderClient then
    let saved := r.currentResponse.headers
    let r :=
      match saved with
      | some h => { r with currentResponse := { head with headers := some h } }
      | none => { r with currentResponse := head }
    continueToBeforeRedirect f redirectInfo netOK r
  else
    let r := { r with currentResponse := head }
    handleResponseOrRedirectHeaders f (.toBeforeRedirect redirectInfo) r

/-- `OnBeforeSendHeaders` (TrustedHeaderClient event): outside header-client
mode answer the callback immediately; otherwise adopt the transport's headers
and run the before-send-headers phase. -/
def onBeforeSendHeadersEvent (f : FactoryCtx) (headers : HttpRequestHeaders)
    (r : InProgressRequest) : InProgressRequest × List Action :=
  if r.currentRequestUsesHeaderClient = false then
    (r, [.runOnBeforeSendHeadersCallback netOK none])
  else
    let r := { r with request := { r.request with headers := headers } }
    continueToBeforeSendHeaders f netOK r

/-- `OnHeadersReceived` (TrustedHeaderClient event): outside header-client
mode answer the callback immediately; otherwise capture the raw headers as
the current response and run the headers-received phase toward
`ContinueToHandleOverrideHeaders`. -/
def onHeadersReceivedEvent (f : FactoryCtx) (headers : HttpResponseHeaders)
    (r : InProgressRequest) : InProgressRequest × List Action :=
  if r.currentRequestUsesHeaderClient = false then
    (r, [.runOnHeadersReceivedCallback netOK none GURL.empty])
  else
    let newResponse : URLResponseHead := { URLResponseHead.new with headers := some headers }
    let r := { r with currentResponse := newResponse }
    handleResponseOrRedirectHeaders f .toHandleOverrideHeaders r

/-! ## The factory -/

/-- `ProxyingURLLoaderFactory` state: its maps, the global request-id
counter, and the deletion flag set by `MaybeDeleteThis`. -/
structure FactoryState where
  ctx : FactoryCtx
  interceptedSchemes : List String
  requests : List (Nat × InProgressRequest)
  networkRequestIdToWebRequestId : List (Nat × Nat)
  gRequestId : Nat
  deleted : Bool
deriving DecidableEq, Repr

/-- `MaybeDeleteThis`: free the factory once the transport channel is gone
and no requests remain. -/
def maybeDeleteThis (st : FactoryState) : FactoryState :=
  if st.ctx.targetFactoryBound = true ∨ st.requests ≠ [] then st
  else { st with deleted := true }

/-- `RemoveRequest`: erase the correlation-table entry and the request
record, then re-evaluate the teardown condition. -/
def removeRequestFromFactory (networkServiceRequestId requestId : Nat)
    (st : FactoryState) : FactoryState :=
  maybeDeleteThis
    { st with
        networkRequestIdToWebRequestId :=
          st.networkRequestIdToWebRequestId.filter
            (fun p => p.1 != networkServiceRequestId)
        requests := st.requests.filter (fun p => p.1 != requestId) }

/-- Interpret the `removeRequest` actions a record emitted ("Deletes |this|"). -/
def applyRemovals (st : FactoryState) (acts : List Action) : FactoryState :=
  acts.foldl
    (fun s a =>
      match a with
      | .removeRequest n w => removeRequestFromFactory n w s
      | _ => s)
    st

/-- `CreateLoaderAndStart`: scheme-interception table first, then the asar
file short-circuit, then the no-listener pass-through fast path; otherwise
allocate a stable id, register the correlation entry for a nonzero transport
id, create the record and `Restart` it. -/
def createLoaderAndStart (st : FactoryState) (routingId requestId : Nat)
    (request : ResourceRequest) : FactoryState × List Action :=
  if st.interceptedSchemes.contains request.url.scheme then
    (st, [.interceptedHandlerRun request.url.scheme])
  else if request.url.scheme = "file" then
    (st, [.asarLoaderStart])
  else if st.ctx.api.hasListener = false then
    (st, [.passthroughToTarget request])
  else
    let webRequestId := st.gRequestId + 1
    let st := { st with gRequestId := webRequestId }
    let st :=
      if requestId ≠ 0 then
        { st with networkRequestIdToWebRequestId :=
            (requestId, webRequestId) :: st.networkRequestIdToWebRequestId }
      else st
    let step := restart st.ctx (mkInProgressRequest webRequestId routingId requestId request)
    let st := { st with requests := (webRequestId, step.1) :: st.requests }
    (applyRemovals st step.2, step.2)

/-- An error event (such as the issuer disconnect handler) reaching the
factory for record `requestId`: the callbacks are bound through weak
pointers, so a record that has already been deregistered ignores it. -/
def factoryHandleRequestError (st : FactoryState) (requestId : Nat)
    (status : URLLoaderCompletionStatus) : FactoryState × List Action :=
  match st.requests.find? (fun p => p.1 == requestId) with
  | none => (st, [])
  | some p =>
      let step := onRequestError status p.2
      (applyRemovals st step.2, step.2)

/-- A transport completion event reaching the factory for record
`requestId`. -/
def factoryHandleComplete (st : FactoryState) (requestId : Nat)
    (status : URLLoaderCompletionStatus) : FactoryState × List Action :=
  match st.requests.find? (fun p => p.1 == requestId) with
  | none => (st, [])
  | some p =>
      let step := onComplete status p.2
      (applyRemovals st step.2, step.2)

/-! ## Specification-side definition (for the header-mode refinement claim) -/

/-- Modelled from the spec (§4.2 "Header Negotiation Strategy"), for
comparison with the source's `computeUsesHeaderClient`: the trusted-header
channel is used iff (a) a trusted-header channel exists at the factory
level, (b) the transport assigned a nonzero per-leg identifier, and (c) at
least one active listener requires full (non-"extra") header visibility for
this leg. -/
def specUsesHeaderClient (trustedHeaderChannelExists : Bool)
    (networkServiceRequestId : Nat)
    (hasExtraHeadersListenerForRequest : Bool) : Bool :=
  trustedHeaderChannelExists && (networkServiceRequestId != 0) &&
    hasExtraHeadersListenerForRequest

/-! ## Concrete sample data (used by witnesses and counterexamples) -/

/-- A listener oracle that lets every hook proceed synchronously with no
redirect and no override. -/
def apiQuiet : WebRequestApi :=
  { hasListener := true
    hasExtraHeadersListenerForRequest := false
    beforeRequestResult := netOK
    beforeRequestRedirectUrl := GURL.empty
    beforeSendHeadersResult := netOK
    headersReceivedResult := netOK
    headersReceivedOverride := none
    headersReceivedRedirectUrl := GURL.empty }

def ctxQuiet : FactoryCtx :=
  { api := apiQuiet
    urlLoaderHeaderClientBound := false
    targetFactoryBound := true
    shouldEnableOutOfBlinkCors := true }

def reqA : ResourceRequest :=
  { url := ⟨"http://a/x"⟩
    method := "POST"
    headers := ⟨[("Origin", "http://o"), ("X-Test", "1")]⟩
    requestBody := some "payload"
    requestInitiator := some (.originTuple "http://o")
    siteForCookies := ⟨"http://a/x"⟩
    referrer := ⟨""⟩
    referrerPolicy := 0 }

/-- Context for the header-mode counterexample: the trusted-header binding
exists and a listener requiring full header visibility is registered. -/
def c1Ctx : FactoryCtx :=
  { ctxQuiet with
      api := { apiQuiet with hasExtraHeadersListenerForRequest := true }
      urlLoaderHeaderClientBound := true }

/-- Record for the header-mode counterexample: the transport assigned the
nonzero per-leg identifier 7. -/
def c1Rec : InProgressRequest := mkInProgressRequest 1 0 7 reqA

/-! A concrete two-redirect lifetime of one Request Record, used to count the
false→true transitions of the `requestCompleted` flag.  Leg 1 starts the
request against the transport, the transport redirects; the issuer follows;
leg 2 again ends in a transport redirect. -/

def c3r0 : InProgressRequest := mkInProgressRequest 1 0 5 reqA

def c3Step1 : InProgressRequest × List Action := restart ctxQuiet c3r0

def c3RedirectInfo1 : RedirectInfo :=
  ⟨302, "GET", ⟨"http://b/y"⟩, ⟨"http://b/y"⟩, "", 0⟩

def c3Head1 : URLResponseHead := ⟨some ⟨302, [("Location", "http://b/y")]⟩, 10⟩

def c3Step2 : InProgressRequest × List Action :=
  onReceiveRedirect ctxQuiet c3RedirectInfo1 c3Head1 c3Step1.1

def c3Step3 : InProgressRequest × List Action :=
  followRedirect ctxQuiet [] ⟨[]⟩ none c3Step2.1

def c3RedirectInfo2 : RedirectInfo :=
  ⟨302, "GET", ⟨"http://c/z"⟩, ⟨"http://c/z"⟩, "", 0⟩

def c3Head2 : URLResponseHead := ⟨some ⟨302, [("Location", "http://c/z")]⟩, 10⟩

def c3Step4 : InProgressRequest × List Action :=
  onReceiveRedirect ctxQuiet c3RedirectInfo2 c3Head2 c3Step3.1

/-- The `requestCompleted` flag observed after each step of the lifetime
above (creation, leg-1 start, leg-1 redirect finalize, follow-redirect with
leg-2 start, leg-2 redirect finalize). -/
def c3CompletedFlags : List Bool :=
  [c3r0.requestCompleted, c3Step1.1.requestCompleted, c3Step2.1.requestCompleted,
   c3Step3.1.requestCompleted, c3Step4.1.requestCompleted]

/-- Number of false→true transitions along a sampled Boolean trace. -/
def countFalseTrueTransitions : List Bool → Nat
  | a :: b :: rest =>
      (if a = false ∧ b = true then 1 else 0) + countFalseTrueTransitions (b :: rest)
  | _ => 0

/-! ## Helper lemmas -/

theorem resumeProxiedClient_request (r : InProgressRequest) :
    (resumeProxiedClient r).request = r.request := by
  unfold resumeProxiedClient; split <;> rfl

theorem resumeProxiedClient_currentResponse (r : InProgressRequest) :
    (resumeProxiedClient r).currentResponse = r.currentResponse := by
  unfold resumeProxiedClient; split <;> rfl

theorem resumeProxiedClient_usesHeaderClient (r : InProgressRequest) :
    (resumeProxiedClient r).currentRequestUsesHeaderClient =
      r.currentRequestUsesHeaderClient := by
  unfold resumeProxiedClient; split <;> rfl

theorem resumeProxiedClient_requestCompleted (r : InProgressRequest) :
    (resumeProxiedClient r).requestCompleted = r.requestCompleted := by
  unfold resumeProxiedClient; split <;> rfl

theorem resumeProxiedClient_overrideHeaders (r : InProgressRequest) :
    (resumeProxiedClient r).overrideHeaders = r.overrideHeaders := by
  unfold resumeProxiedClient; split <;> rfl

theorem resumeProxiedClient_redirectUrl (r : InProgressRequest) :
    (resumeProxiedClient r).redirectUrl = r.redirectUrl := by
  unfold resumeProxiedClient; split <;> rfl

theorem resumeProxiedClient_pendingFollowRedirectParams (r : InProgressRequest) :
    (resumeProxiedClient r).pendingFollowRedirectParams =
      r.pendingFollowRedirectParams := by
  unfold resumeProxiedClient; split <;> rfl

theorem resumeProxiedClient_targetLoaderBound (r : InProgressRequest) :
    (resumeProxiedClient r).targetLoaderBound = r.targetLoaderBound := by
  unfold resumeProxiedClient; split <;> rfl

theorem resumeProxiedClient_proxiedClientBound (r : InProgressRequest) :
    (resumeProxiedClient r).proxiedClientBound = r.proxiedClientBound := by
  unfold resumeProxiedClient; split <;> rfl

theorem resumeProxiedClient_headerClientBound (r : InProgressRequest) :
    (resumeProxiedClient r).headerClientBound = r.headerClientBound := by
  unfold resumeProxiedClient; split <;> rfl

/-! ## C1: header-mode selection -/

/-- C1 (corrected; counterexample): the claim states that the trusted-header
channel is used iff the factory binding exists, the per-leg identifier is
nonzero, and a listener requires full header visibility.  At this input the
binding exists (`urlLoaderHeaderClientBound = true`), the identifier is 7,
and such a listener is registered, so the spec-side mode is `true`; but
`UpdateRequestInfo` conjoins a hard-coded `false` in place of the listener
check, so the recomputed mode is `false`. -/
theorem c1_counterexample :
    (updateRequestInfo c1Ctx c1Rec).currentRequestUsesHeaderClient ≠
      specUsesHeaderClient c1Ctx.urlLoaderHeaderClientBound
        c1Rec.networkServiceRequestId
        c1Ctx.api.hasExtraHeadersListenerForRequest := by
  decide

/-- C1 (amended): whenever the mode is recomputed (`UpdateRequestInfo`, as
called from `Restart` and from `FollowRedirect`), the trusted-header channel
is never selected: the listener-visibility condition of the mode computation
is a hard-coded `false` placeholder, so sniffed-header mode always applies. -/
theorem c1_amended_sniffing_always (f : FactoryCtx) (r : InProgressRequest) :
    (updateRequestInfo f r).currentRequestUsesHeaderClient = false := by
  simp [updateRequestInfo, computeUsesHeaderClient]

/-! ## C7: no-listener pass-through fast path -/

/-- C7 (confirmed): a request whose scheme is neither intercepted nor the
built-in file scheme, arriving while no listener is registered, is forwarded
straight to the transport, and the factory state — in particular the
requests collection and the identifier correlation table — is unchanged (no
Request Record is allocated). -/
theorem c7_no_listener_passthrough (st : FactoryState) (routingId requestId : Nat)
    (request : ResourceRequest)
    (hintercept : st.interceptedSchemes.contains request.url.scheme = false)
    (hfile : request.url.scheme ≠ "file")
    (hlistener : st.ctx.api.hasListener = false) :
    createLoaderAndStart st routingId requestId request =
      (st, [.passthroughToTarget request]) := by
  have h1 : request.url.scheme ∉ st.interceptedSchemes := by simpa using hintercept
  simp [createLoaderAndStart, h1, hfile, hlistener]

def c7State : FactoryState :=
  { ctx := { ctxQuiet with api := { apiQuiet with hasListener := false } }
    interceptedSchemes := ["zip"]
    requests := []
    networkRequestIdToWebRequestId := []
    gRequestId := 0
    deleted := false }

theorem c7_no_listener_passthrough_witness :
    createLoaderAndStart c7State 0 9 reqA = (c7State, [.passthroughToTarget reqA]) :=
  c7_no_listener_passthrough c7State 0 9 reqA (by decide) (by decide) (by decide)

/-! ## C10: redirect with no previously captured header-channel headers -/

/-- C10 (confirmed): on a trusted-header-channel leg where no headers were
captured from the header channel (`current_response_->headers` is null, as
for an HSTS upgrade redirect delivered without a prior headers-received
event), `OnReceiveRedirect` forwards the redirect to the issuer with the
head supplied by the transport's own redirect event — its headers are kept,
not replaced. -/
theorem c10_redirect_keeps_transport_headers (f : FactoryCtx)
    (redirectInfo : RedirectInfo) (head : URLResponseHead) (r : InProgressRequest)
    (huse : r.currentRequestUsesHeaderClient = true)
    (hnone : r.currentResponse.headers = none) :
    (onReceiveRedirect f redirectInfo head r).2 =
      [.apiOnBeforeRedirect redirectInfo.newUrl,
       .clientOnReceiveRedirect redirectInfo head] := by
  simp only [onReceiveRedirect, huse, if_true, hnone]
  simp [continueToBeforeRedirect, netOK, resumeProxiedClient_currentResponse]

def c10Rec : InProgressRequest :=
  { mkInProgressRequest 2 0 4 reqA with currentRequestUsesHeaderClient := true }

def c10Head : URLResponseHead := ⟨some ⟨307, [("Location", "https://a/x")]⟩, 0⟩

def c10RedirectInfo : RedirectInfo :=
  ⟨307, "POST", ⟨"https://a/x"⟩, ⟨"https://a/x"⟩, "", 0⟩

theorem c10_redirect_keeps_transport_headers_witness :
    (onReceiveRedirect ctxQuiet c10RedirectInfo c10Head c10Rec).2 =
      [.apiOnBeforeRedirect c10RedirectInfo.newUrl,
       .clientOnReceiveRedirect c10RedirectInfo c10Head] :=
  c10_redirect_keeps_transport_headers ctxQuiet c10RedirectInfo c10Head c10Rec
    (by decide) (by decide)

/-! ## Request-body preservation through the pipeline (for C9) -/

theorem onRequestError_request (status : URLLoaderCompletionStatus)
    (r : InProgressRequest) : (onRequestError status r).1.request = r.request := rfl

theorem continueToBeforeRedirect_bodyNone (f : FactoryCtx) (ri : RedirectInfo)
    (e : Int) (r : InProgressRequest) (h : r.request.requestBody = none) :
    (continueToBeforeRedirect f ri e r).1.request.requestBody = none := by
  unfold continueToBeforeRedirect
  split
  · simp [onRequestError_request, h]
  · simp only [resumeProxiedClient_request]
    split <;> simp_all [resumeProxiedClient_request]

theorem handleBeforeRequestRedirect_bodyNone (f : FactoryCtx)
    (r : InProgressRequest) (h : r.request.requestBody = none) :
    (handleBeforeRequestRedirect f r).1.request.requestBody = none := by
  simp only [handleBeforeRequestRedirect]
  exact continueToBeforeRedirect_bodyNone _ _ _ _ (by simp [h])

theorem continueToStartRequest_bodyNone (f : FactoryCtx) (e : Int)
    (r : InProgressRequest) (h : r.request.requestBody = none) :
    (continueToStartRequest f e r).1.request.requestBody = none := by
  rw [continueToStartRequest]
  split
  · simp [onRequestError_request, h]
  · split
    · exact handleBeforeRequestRedirect_bodyNone _ _ h
    · cases hb : (resumeProxiedClient r).headerClientBound <;>
        simp [hb, resumeProxiedClient_request, h] <;>
        split <;> simp [resumeProxiedClient_request, h]

theorem continueToSendHeaders_bodyNone (f : FactoryCtx)
    (removedHeaders setHeaders : List String) (e : Int) (r : InProgressRequest)
    (h : r.request.requestBody = none) :
    (continueToSendHeaders f removedHeaders setHeaders e r).1.request.requestBody =
      none := by
  rw [continueToSendHeaders]
  split
  · simp [onRequestError_request, h]
  · cases hu : r.currentRequestUsesHeaderClient
    · cases hp : r.pendingFollowRedirectParams <;>
        · simp only [hu, hp, Bool.false_eq_true, if_false,
            resumeProxiedClient_usesHeaderClient]
          split <;>
            first
            | (apply continueToStartRequest_bodyNone
               simp [resumeProxiedClient_request, h])
            | simp_all [resumeProxiedClient_request]
    · simp only [hu, if_true, resumeProxiedClient_usesHeaderClient]
      split <;> simp_all [resumeProxiedClient_request]

theorem continueToBeforeSendHeaders_bodyNone (f : FactoryCtx) (e : Int)
    (r : InProgressRequest) (h : r.request.requestBody = none) :
    (continueToBeforeSendHeaders f e r).1.request.requestBody = none := by
  rw [continueToBeforeSendHeaders]
  split
  · simp [onRequestError_request, h]
  · split
    · exact handleBeforeRequestRedirect_bodyNone _ _ h
    · dsimp only
      split
      · simp [onRequestError_request, resumeProxiedClient_request, h]
      · split
        · split <;> simp_all [resumeProxiedClient_request]
        · apply continueToSendHeaders_bodyNone
          simp [resumeProxiedClient_request, h]

theorem restartInternal_bodyNone (f : FactoryCtx) (r : InProgressRequest)
    (h : r.request.requestBody = none) :
    (restartInternal f r).1.request.requestBody = none := by
  rw [restartInternal]
  dsimp only
  split
  · simp [onRequestError_request, h]
  · split
    · split <;> split <;> simp_all
    · split
      · apply continueToStartRequest_bodyNone
        simp [h]
      · apply continueToBeforeSendHeaders_bodyNone
        simp [h]

theorem followRedirect_bodyNone (f : FactoryCtx) (removedHeaders : List String)
    (modifiedHeaders : HttpRequestHeaders) (newUrl : Option GURL)
    (r : InProgressRequest) (h : r.request.requestBody = none) :
    (followRedirect f removedHeaders modifiedHeaders newUrl r).1.request.requestBody =
      none := by
  rw [followRedirect.eq_def]
  dsimp only
  apply restartInternal_bodyNone
  cases newUrl <;>
    split <;>
    simp_all [updateRequestInfo] <;>
    split <;> simp

/-! ## C9: a redirect to GET drops the request body -/

/-- C9 (confirmed): the before-redirect finalize applied with redirect
instructions whose new method is GET leaves a request snapshot with no body;
and every subsequent `FollowRedirect` preserves the absence of a body, so
the request forwarded on the next leg has none. -/
theorem c9_redirect_to_get_drops_body (f : FactoryCtx) (redirectInfo : RedirectInfo)
    (r : InProgressRequest) (hget : redirectInfo.newMethod = "GET") :
    ((continueToBeforeRedirect f redirectInfo netOK r).1.request.requestBody = none)
    ∧ (∀ (removedHeaders : List String) (modifiedHeaders : HttpRequestHeaders)
        (newUrl : Option GURL) (r2 : InProgressRequest),
        r2.request.requestBody = none →
        (followRedirect f removedHeaders modifiedHeaders newUrl r2).1.request.requestBody
          = none) := by
  constructor
  · simp [continueToBeforeRedirect, netOK, resumeProxiedClient_request, hget]
  · intro removedHeaders modifiedHeaders newUrl r2 h2
    exact followRedirect_bodyNone f removedHeaders modifiedHeaders newUrl r2 h2

def c9RedirectInfo : RedirectInfo :=
  ⟨303, "GET", ⟨"http://b/y"⟩, ⟨"http://b/y"⟩, "", 0⟩

def c9Rec : InProgressRequest := mkInProgressRequest 4 0 6 reqA

theorem c9_redirect_to_get_drops_body_witness :
    (continueToBeforeRedirect ctxQuiet c9RedirectInfo netOK c9Rec).1.request.requestBody
      = none :=
  (c9_redirect_to_get_drops_body ctxQuiet c9RedirectInfo c9Rec (by decide)).1

/-! ## C5: synchronous cancel at before-request -/

/-- C5 (confirmed): when the before-request hook synchronously cancels, the
leg performs no transport call at all (in particular no target loader is
created), and the record finalizes with exactly one terminal error event
carrying the blocked-by-policy code, followed by deregistration. -/
theorem c5_sync_cancel_no_transport (f : FactoryCtx)
    (webRequestId routingId networkServiceRequestId : Nat)
    (request : ResourceRequest)
    (hcancel : f.api.beforeRequestResult = netErrBlockedByClient) :
    let res := restart f
      (mkInProgressRequest webRequestId routingId networkServiceRequestId request)
    res.2 = [.apiOnBeforeRequest, .clientOnComplete netErrBlockedByClient,
             .apiOnErrorOccurred netErrBlockedByClient,
             .removeRequest networkServiceRequestId webRequestId]
    ∧ res.2.all (fun a => !a.isTransportCall) = true
    ∧ terminalEvents res.2 = [netErrBlockedByClient]
    ∧ res.1.targetLoaderBound = false := by
  simp [restart, restartInternal, updateRequestInfo, mkInProgressRequest, hcancel,
    onRequestError, computeUsesHeaderClient, terminalEvents, Action.isTransportCall,
    netErrBlockedByClient]

def c5Ctx : FactoryCtx :=
  { ctxQuiet with api := { apiQuiet with beforeRequestResult := netErrBlockedByClient } }

theorem c5_sync_cancel_no_transport_witness :
    (restart c5Ctx (mkInProgressRequest 11 0 3 reqA)).2 =
      [.apiOnBeforeRequest, .clientOnComplete netErrBlockedByClient,
       .apiOnErrorOccurred netErrBlockedByClient, .removeRequest 3 11] :=
  (c5_sync_cancel_no_transport c5Ctx 11 0 3 reqA (by decide)).1

/-! ## C4: listener-requested redirect at before-request -/

/-- C4 (confirmed): when the before-request hook proceeds but supplies a
redirect URL `u`, the leg delivers to the issuer a redirect notification
whose new URL is `u` and whose status code is 307, whose fabricated response
headers carry a `Location` header naming `u`; no transport call is made for
the leg, and the transport-facing channels (target loader, proxied client
binding, header client) are all left torn down. -/
theorem c4_synthetic_redirect_at_before_request (f : FactoryCtx)
    (webRequestId routingId networkServiceRequestId : Nat)
    (request : ResourceRequest) (u : GURL)
    (hok : f.api.beforeRequestResult = netOK)
    (hurl : f.api.beforeRequestRedirectUrl = u)
    (hne : u.isEmpty = false) :
    let res := restart f
      (mkInProgressRequest webRequestId routingId networkServiceRequestId request)
    (res.2.any fun a =>
      match a with
      | .clientOnReceiveRedirect ri head =>
          ri.newUrl == u && (ri.statusCode == 307) &&
            (match head.headers with
             | some hh => (hh.responseCode == 307) &&
                 (hh.getHeader "Location" == some u.spec)
             | none => false)
      | _ => false) = true
    ∧ res.2.all (fun a => !a.isTransportCall) = true
    ∧ res.1.targetLoaderBound = false
    ∧ res.1.proxiedClientBound = false
    ∧ res.1.headerClientBound = false := by
  simp [restart, restartInternal, updateRequestInfo, mkInProgressRequest, hok, hurl,
    hne, computeUsesHeaderClient, continueToBeforeSendHeaders,
    handleBeforeRequestRedirect, continueToBeforeRedirect, resumeProxiedClient,
    HttpResponseHeaders.getHeader, Action.isTransportCall, netOK, netErrIoPending,
    netErrBlockedByClient]

def c4Ctx : FactoryCtx :=
  { ctxQuiet with
      api := { apiQuiet with beforeRequestRedirectUrl := ⟨"http://r/t"⟩ } }

theorem c4_synthetic_redirect_at_before_request_witness :
    (restart c4Ctx (mkInProgressRequest 12 0 3 reqA)).2.all
      (fun a => !a.isTransportCall) = true :=
  (c4_synthetic_redirect_at_before_request c4Ctx 12 0 3 reqA ⟨"http://r/t"⟩
    (by decide) (by decide) (by decide)).2.1

/-! ## C3: the completed flag across a record lifetime -/

/-- C3 (corrected; counterexample): the claim states the `completed` flag
transitions false→true exactly once over the record's entire lifetime.
Along the concrete two-redirect lifetime `c3r0 → c3Step1 → c3Step2 (leg-1
redirect finalize) → c3Step3 (issuer follows, leg 2 starts) → c3Step4
(leg-2 redirect finalize)`, the flag trace is
`[false, false, true, false, true]`: two false→true transitions, because
`RestartInternal` resets the flag at the start of every leg. -/
theorem c3_counterexample :
    c3CompletedFlags = [false, false, true, false, true]
    ∧ countFalseTrueTransitions c3CompletedFlags = 2 := by
  decide

/-- C3 (amended): the `completed` flag is per-leg, not per-lifetime: every
before-redirect finalize sets it to `true`, and `RestartInternal` (the start
of each leg, shown here suspended at a pending before-request decision)
resets it to `false`; hence it transitions false→true once per redirected
leg, which can be more than once per Request Record. -/
theorem c3_amended_completed_per_leg (f : FactoryCtx) (redirectInfo : RedirectInfo)
    (r r2 : InProgressRequest)
    (hpending : f.api.beforeRequestResult = netErrIoPending) :
    ((continueToBeforeRedirect f redirectInfo netOK r).1.requestCompleted = true)
    ∧ ((restartInternal f r2).1.requestCompleted = false) := by
  constructor
  · simp [continueToBeforeRedirect, netOK, resumeProxiedClient_requestCompleted]
  · simp only [restartInternal, hpending, netErrIoPending, netErrBlockedByClient]
    norm_num
    split <;> split <;> rfl

def c3PendingCtx : FactoryCtx :=
  { ctxQuiet with api := { apiQuiet with beforeRequestResult := netErrIoPending } }

theorem c3_amended_completed_per_leg_witness :
    (continueToBeforeRedirect c3PendingCtx c3RedirectInfo1 netOK c3r0).1.requestCompleted
      = true :=
  (c3_amended_completed_per_leg c3PendingCtx c3RedirectInfo1 c3r0 c3r0 (by decide)).1

/-! ## C6: Set-Cookie reuse on trusted-header-channel legs -/

/-- C6 (confirmed): on a trusted-header-channel leg, when the header-channel
`OnHeadersReceived` event carried a `Set-Cookie` header (value `v`) and the
listener supplies no override, a later main-channel `OnReceiveResponse`
event whose head lacks `Set-Cookie` is forwarded to the issuer with the
captured header-channel headers — so the forwarded response still carries
`Set-Cookie: v`. -/
theorem c6_set_cookie_preserved (f : FactoryCtx) (r : InProgressRequest)
    (channelHeaders : HttpResponseHeaders) (head : URLResponseHead) (v : String)
    (huse : r.currentRequestUsesHeaderClient = true)
    (hok : f.api.headersReceivedResult = netOK)
    (hov : f.api.headersReceivedOverride = none)
    (hcookie : channelHeaders.getHeader "Set-Cookie" = some v)
    (hmain : (match head.headers with
              | some hh => hh.getHeader "Set-Cookie"
              | none => none) = none) :
    ((onReceiveResponse f head (onHeadersReceivedEvent f channelHeaders r).1).2.any
      fun a =>
        match a with
        | .clientOnReceiveResponse h =>
            match h.headers with
            | some hh => hh.getHeader "Set-Cookie" == some v
            | none => false
        | _ => false) = true := by
  simp [onHeadersReceivedEvent, huse, handleResponseOrRedirectHeaders, hok, hov,
    continueToHandleOverrideHeaders, runHeadersPhaseCont, onReceiveResponse,
    continueToResponseStarted, resumeProxiedClient_usesHeaderClient,
    resumeProxiedClient_currentResponse, resumeProxiedClient_overrideHeaders,
    netOK, netErrIoPending, netErrBlockedByClient, hcookie]

def c6Rec : InProgressRequest :=
  { mkInProgressRequest 5 0 8 reqA with currentRequestUsesHeaderClient := true }

def c6ChannelHeaders : HttpResponseHeaders :=
  ⟨200, [("Set-Cookie", "sid=1"), ("Content-Type", "text/html")]⟩

def c6Head : URLResponseHead := ⟨some ⟨200, [("Content-Type", "text/html")]⟩, 5⟩

theorem c6_set_cookie_preserved_witness :
    ((onReceiveResponse ctxQuiet c6Head
        (onHeadersReceivedEvent ctxQuiet c6ChannelHeaders c6Rec).1).2.any
      fun a =>
        match a with
        | .clientOnReceiveResponse h =>
            match h.headers with
            | some hh => hh.getHeader "Set-Cookie" == some "sid=1"
            | none => false
        | _ => false) = true :=
  c6_set_cookie_preserved ctxQuiet c6Rec c6ChannelHeaders c6Head "sid=1"
    (by decide) (by decide) (by decide) (by decide) (by decide)

/-! ## List helpers for the factory maps -/

theorem filter_self_idem {α : Type} (p : α → Bool) (l : List α) :
    (l.filter p).filter p = l.filter p := by
  induction l with
  | nil => rfl
  | cons a t ih => by_cases h : p a <;> simp [List.filter_cons, h, ih]

theorem find?_of_filtered_out {α κ : Type} [BEq κ] [LawfulBEq κ]
    (l : List (κ × α)) (k : κ) :
    (l.filter (fun p => p.1 != k)).find? (fun p => p.1 == k) = none := by
  induction l with
  | nil => rfl
  | cons a t ih =>
      by_cases hk : a.1 = k
      · simp [List.filter_cons, hk, ih]
      · simp [List.filter_cons, List.find?_cons, hk, ih]

theorem maybeDeleteThis_requests (st : FactoryState) :
    (maybeDeleteThis st).requests = st.requests := by
  unfold maybeDeleteThis; split <;> rfl

theorem maybeDeleteThis_ctx (st : FactoryState) :
    (maybeDeleteThis st).ctx = st.ctx := by
  unfold maybeDeleteThis; split <;> rfl

theorem removeRequestFromFactory_requests (n w : Nat) (st : FactoryState) :
    (removeRequestFromFactory n w st).requests =
      st.requests.filter (fun p => p.1 != w) := by
  simp [removeRequestFromFactory, maybeDeleteThis_requests]

theorem removeRequestFromFactory_idem (n w : Nat) (s : FactoryState) :
    removeRequestFromFactory n w (removeRequestFromFactory n w s) =
      removeRequestFromFactory n w s := by
  cases s with
  | mk ctx schemes reqs map g d =>
      simp only [removeRequestFromFactory, maybeDeleteThis]
      split <;> split <;> simp_all [filter_self_idem]

/-! ## C2: exactly one terminal event, idempotent deregistration -/

/-- C2 (confirmed): for a live, not-yet-completed record, triggering the
error path twice delivers exactly one terminal completion to the issuer (the
second trigger finds the record already deregistered and is a no-op); after
the terminal event the record is deregistered from the factory;
deregistration is idempotent; and the success path likewise delivers exactly
one terminal completion and deregisters. -/
theorem c2_exactly_one_terminal (st : FactoryState) (requestId : Nat)
    (rec : InProgressRequest) (status : URLLoaderCompletionStatus)
    (hfind : st.requests.find? (fun p => p.1 == requestId) = some (requestId, rec))
    (hrid : rec.requestId = requestId)
    (hnc : rec.requestCompleted = false) :
    let res1 := factoryHandleRequestError st requestId status
    let res2 := factoryHandleRequestError res1.1 requestId status
    terminalEvents (res1.2 ++ res2.2) = [status.errorCode]
    ∧ res1.1.requests.find? (fun p => p.1 == requestId) = none
    ∧ res2.1 = res1.1 ∧ res2.2 = []
    ∧ (∀ (n w : Nat) (s : FactoryState),
        removeRequestFromFactory n w (removeRequestFromFactory n w s) =
          removeRequestFromFactory n w s)
    ∧ (∀ (st2 : FactoryState) (requestId2 : Nat) (rec2 : InProgressRequest),
        st2.requests.find? (fun p => p.1 == requestId2) = some (requestId2, rec2) →
        rec2.requestId = requestId2 →
        terminalEvents (factoryHandleComplete st2 requestId2 ⟨netOK⟩).2 = [netOK]
        ∧ (factoryHandleComplete st2 requestId2 ⟨netOK⟩).1.requests.find?
            (fun p => p.1 == requestId2) = none) := by
  have hacts : onRequestError status rec =
      (rec, [Action.clientOnComplete status.errorCode,
             Action.apiOnErrorOccurred status.errorCode,
             Action.removeRequest rec.networkServiceRequestId rec.requestId]) := by
    simp [onRequestError, hnc]
  have hres1 : factoryHandleRequestError st requestId status =
      (removeRequestFromFactory rec.networkServiceRequestId requestId st,
       [Action.clientOnComplete status.errorCode,
        Action.apiOnErrorOccurred status.errorCode,
        Action.removeRequest rec.networkServiceRequestId requestId]) := by
    simp [factoryHandleRequestError, hfind, hacts, applyRemovals, hrid]
  have hafter :
      (removeRequestFromFactory rec.networkServiceRequestId requestId st).requests.find?
        (fun p => p.1 == requestId) = none := by
    simp [removeRequestFromFactory_requests, find?_of_filtered_out]
  have hres2 : factoryHandleRequestError
      (removeRequestFromFactory rec.networkServiceRequestId requestId st)
      requestId status =
      (removeRequestFromFactory rec.networkServiceRequestId requestId st, []) := by
    simp [factoryHandleRequestError, hafter]
  refine ⟨?_, ?_, ?_, ?_, fun n w s => removeRequestFromFactory_idem n w s, ?_⟩
  · simp [hres1, hres2, terminalEvents]
  · simp [hres1, hafter]
  · simp [hres1, hres2]
  · simp [hres1, hres2]
  · intro st2 requestId2 rec2 hfind2 hrid2
    constructor
    · simp [factoryHandleComplete, hfind2, onComplete, netOK, terminalEvents]
    · simp only [factoryHandleComplete, hfind2, onComplete]
      simp [applyRemovals, removeRequestFromFactory_requests, hrid2,
        find?_of_filtered_out, netOK]

def c2Rec : InProgressRequest := mkInProgressRequest 3 0 9 reqA

def c2State : FactoryState :=
  { ctx := ctxQuiet
    interceptedSchemes := []
    requests := [(3, c2Rec)]
    networkRequestIdToWebRequestId := [(9, 3)]
    gRequestId := 3
    deleted := false }

theorem c2_exactly_one_terminal_witness :
    terminalEvents ((factoryHandleRequestError c2State 3 ⟨netErrAborted⟩).2 ++
      (factoryHandleRequestError (factoryHandleRequestError c2State 3
        ⟨netErrAborted⟩).1 3 ⟨netErrAborted⟩).2) = [netErrAborted] :=
  (c2_exactly_one_terminal c2State 3 c2Rec ⟨netErrAborted⟩
    (by decide) (by decide) (by decide)).1

/-! ## Header-algebra lemmas (for C8) -/

theorem find?_filtered_append_self {α : Type} (l : List (String × α)) (n : String)
    (v : α) :
    ((l.filter (fun p => p.1 != n)) ++ [(n, v)]).find? (fun p => p.1 == n) =
      some (n, v) := by
  induction l with
  | nil =>
      rw [List.filter_nil, List.nil_append, List.find?_cons_of_pos _ (by simp)]
  | cons a t ih =>
      by_cases ha : a.1 = n
      · rw [List.filter_cons_of_neg (by simp [ha])]; exact ih
      · rw [List.filter_cons_of_pos (by simp [ha]), List.cons_append,
          List.find?_cons_of_neg _ (by simp [ha])]
        exact ih

theorem find?_filtered_append_ne {α : Type} (l : List (String × α)) (n m : String)
    (v : α) (hmn : m ≠ n) :
    ((l.filter (fun p => p.1 != n)) ++ [(n, v)]).find? (fun p => p.1 == m) =
      l.find? (fun p => p.1 == m) := by
  induction l with
  | nil =>
      rw [List.filter_nil, List.nil_append,
        List.find?_cons_of_neg _ (by simp [Ne.symm hmn])]
  | cons a t ih =>
      by_cases ha : a.1 = n
      · rw [List.filter_cons_of_neg (by simp [ha]), ih,
          List.find?_cons_of_neg _ (by simp [ha, Ne.symm hmn])]
      · by_cases ham : a.1 = m
        · rw [List.filter_cons_of_pos (by simp [ha]), List.cons_append,
            List.find?_cons_of_pos _ (by simp [ham]),
            List.find?_cons_of_pos _ (by simp [ham])]
        · rw [List.filter_cons_of_pos (by simp [ha]), List.cons_append,
            List.find?_cons_of_neg _ (by simp [ham]), ih,
            List.find?_cons_of_neg _ (by simp [ham])]

theorem find?_filtered_ne {α : Type} (l : List (String × α)) (n m : String)
    (hmn : m ≠ n) :
    (l.filter (fun p => p.1 != n)).find? (fun p => p.1 == m) =
      l.find? (fun p => p.1 == m) := by
  induction l with
  | nil => rw [List.filter_nil]
  | cons a t ih =>
      by_cases ha : a.1 = n
      · rw [List.filter_cons_of_neg (by simp [ha]), ih,
          List.find?_cons_of_neg _ (by simp [ha, Ne.symm hmn])]
      · by_cases ham : a.1 = m
        · rw [List.filter_cons_of_pos (by simp [ha]),
            List.find?_cons_of_pos _ (by simp [ham]),
            List.find?_cons_of_pos _ (by simp [ham])]
        · rw [List.filter_cons_of_pos (by simp [ha]),
            List.find?_cons_of_neg _ (by simp [ham]), ih,
            List.find?_cons_of_neg _ (by simp [ham])]

theorem getHeader_setHeader_self (h : HttpRequestHeaders) (n v : String) :
    (h.setHeader n v).getHeader n = some v := by
  unfold HttpRequestHeaders.setHeader HttpRequestHeaders.getHeader
  rw [find?_filtered_append_self]
  rfl

theorem getHeader_setHeader_ne (h : HttpRequestHeaders) (n m v : String)
    (hmn : m ≠ n) : (h.setHeader n v).getHeader m = h.getHeader m := by
  unfold HttpRequestHeaders.setHeader HttpRequestHeaders.getHeader
  rw [find?_filtered_append_ne _ _ _ _ hmn]

theorem getHeader_applySet_notMem (l : List (String × String)) :
    ∀ (h : HttpRequestHeaders) (n : String), (∀ p ∈ l, p.1 ≠ n) →
      (l.foldl (fun acc p => acc.setHeader p.1 p.2) h).getHeader n = h.getHeader n := by
  induction l with
  | nil => intro h n _; rfl
  | cons a t ih =>
      intro h n hn
      rw [List.foldl_cons, ih _ n (fun p hp => hn p (List.mem_cons_of_mem a hp)),
        getHeader_setHeader_ne _ _ _ _ (Ne.symm (hn a (List.mem_cons_self a t)))]

theorem getHeader_applySet_mem (l : List (String × String)) :
    ∀ (h : HttpRequestHeaders) (n v : String),
      (l.map Prod.fst).Nodup → (n, v) ∈ l →
      (l.foldl (fun acc p => acc.setHeader p.1 p.2) h).getHeader n = some v := by
  induction l with
  | nil => intro h n v _ hmem; cases hmem
  | cons a t ih =>
      intro h n v hnd hmem
      rw [List.foldl_cons]
      rcases List.mem_cons.mp hmem with heq | hm
      · subst heq
        have hnotin : ∀ p ∈ t, p.1 ≠ n := by
          intro p hp hpn
          have hmemmap : n ∈ t.map Prod.fst := hpn ▸ List.mem_map_of_mem Prod.fst hp
          exact (List.nodup_cons.mp (by simpa using hnd)).1 hmemmap
        rw [getHeader_applySet_notMem t _ n hnotin, getHeader_setHeader_self]
      · have hnd' : (t.map Prod.fst).Nodup :=
          (List.nodup_cons.mp (by simpa using hnd)).2
        exact ih _ n v hnd' hm

theorem getHeader_removeHeader_self (h : HttpRequestHeaders) (n : String) :
    (h.removeHeader n).getHeader n = none := by
  simp [HttpRequestHeaders.removeHeader, HttpRequestHeaders.getHeader,
    find?_of_filtered_out]

theorem getHeader_removeHeader_ne (h : HttpRequestHeaders) (n m : String)
    (hmn : m ≠ n) : (h.removeHeader n).getHeader m = h.getHeader m := by
  unfold HttpRequestHeaders.removeHeader HttpRequestHeaders.getHeader
  rw [find?_filtered_ne _ _ _ hmn]

theorem getHeader_removeHeader_none (h : HttpRequestHeaders) (n m : String)
    (hnone : h.getHeader n = none) : (h.removeHeader m).getHeader n = none := by
  by_cases hnm : n = m
  · subst hnm; exact getHeader_removeHeader_self h n
  · rw [getHeader_removeHeader_ne h m n hnm]; exact hnone

theorem getHeader_foldl_remove_none (l : List String) :
    ∀ (h : HttpRequestHeaders) (n : String), h.getHeader n = none →
      (l.foldl HttpRequestHeaders.removeHeader h).getHeader n = none := by
  induction l with
  | nil => intro h n hn; exact hn
  | cons a t ih =>
      intro h n hn
      rw [List.foldl_cons]
      exact ih _ n (getHeader_removeHeader_none h n a hn)

theorem getHeader_foldl_remove_mem (l : List String) :
    ∀ (h : HttpRequestHeaders) (n : String), n ∈ l →
      (l.foldl HttpRequestHeaders.removeHeader h).getHeader n = none := by
  induction l with
  | nil => intro h n hmem; cases hmem
  | cons a t ih =>
      intro h n hmem
      rw [List.foldl_cons]
      rcases List.mem_cons.mp hmem with rfl | hm
      · exact getHeader_foldl_remove_none t _ n (getHeader_removeHeader_self h n)
      · exact ih _ n hm

theorem getHeader_some_mem (h : HttpRequestHeaders) (n v : String)
    (hv : h.getHeader n = some v) : (n, v) ∈ h.entries := by
  unfold HttpRequestHeaders.getHeader at hv
  cases hfind : h.entries.find? (fun p => p.1 == n) with
  | none => rw [hfind] at hv; cases hv
  | some q =>
      rw [hfind] at hv
      have hq := List.find?_some hfind
      have hqm := List.mem_of_find?_eq_some hfind
      cases q with
      | mk q1 q2 =>
          simp only [Option.map_some', Option.some.injEq] at hv
          simp only [beq_iff_eq] at hq
          rw [← hq, ← hv]
          exact hqm

theorem getHeader_none_forall (h : HttpRequestHeaders) (n : String)
    (hv : h.getHeader n = none) : ∀ p ∈ h.entries, p.1 ≠ n := by
  unfold HttpRequestHeaders.getHeader at hv
  cases hfind : h.entries.find? (fun p => p.1 == n) with
  | some q => rw [hfind] at hv; cases hv
  | none =>
      intro p hp hpn
      have := List.find?_eq_none.mp hfind p hp
      simp [hpn] at this

/-! ## Pending before-request characterization of RestartInternal (for C8) -/

theorem restartInternal_pending_request (f : FactoryCtx) (r : InProgressRequest)
    (hp : f.api.beforeRequestResult = netErrIoPending) :
    (restartInternal f r).1.request = r.request := by
  rw [restartInternal]
  simp only [hp, netErrIoPending, netErrBlockedByClient]
  norm_num
  split <;> split <;> rfl

theorem restartInternal_pending_uses (f : FactoryCtx) (r : InProgressRequest)
    (hp : f.api.beforeRequestResult = netErrIoPending) :
    (restartInternal f r).1.currentRequestUsesHeaderClient =
      r.currentRequestUsesHeaderClient := by
  rw [restartInternal]
  simp only [hp, netErrIoPending, netErrBlockedByClient]
  norm_num
  split <;> split <;> rfl

theorem restartInternal_pending_params (f : FactoryCtx) (r : InProgressRequest)
    (hp : f.api.beforeRequestResult = netErrIoPending) :
    (restartInternal f r).1.pendingFollowRedirectParams =
      r.pendingFollowRedirectParams := by
  rw [restartInternal]
  simp only [hp, netErrIoPending, netErrBlockedByClient]
  norm_num
  split <;> split <;> rfl

theorem restartInternal_pending_acts (f : FactoryCtx) (r : InProgressRequest)
    (hp : f.api.beforeRequestResult = netErrIoPending) :
    (restartInternal f r).2 = [Action.apiOnBeforeRequest] := by
  rw [restartInternal]
  simp only [hp, netErrIoPending, netErrBlockedByClient]
  norm_num

theorem continueToStartRequest_params (f : FactoryCtx) (r : InProgressRequest)
    (hu : r.currentRequestUsesHeaderClient = false) :
    (continueToStartRequest f netOK r).1.pendingFollowRedirectParams =
      r.pendingFollowRedirectParams := by
  rw [continueToStartRequest]
  simp only [hu, netOK, resumeProxiedClient]
  norm_num
  repeat' split
  all_goals rfl

/-! ## C8: FollowRedirect behavior -/

/-- C8 (confirmed): an issuer `FollowRedirect` call applies the URL override
and the header removals/additions to the request snapshot and recomputes the
header mode; were the recomputed mode to use the trusted-header channel
(with a transport loader bound) the redirect instruction would be forwarded
to the transport immediately, and otherwise — always, since the recomputed
mode is never trusted — the parameters are buffered with no transport call
yet; the pipeline then restarts from before-request (shown suspended at a
pending before-request decision, which isolates the buffering); and once the
next before-send-headers phase completes, the buffered parameters are
forwarded to the transport merged with the listener's header mutations and
cleared. -/
theorem c8_follow_redirect (f : FactoryCtx) (r : InProgressRequest)
    (removedHeaders : List String) (modifiedHeaders : HttpRequestHeaders)
    (newUrl : Option GURL)
    (hpending : f.api.beforeRequestResult = netErrIoPending)
    (hbound : r.targetLoaderBound = true)
    (hnodup : (modifiedHeaders.entries.map Prod.fst).Nodup) :
    let res := followRedirect f removedHeaders modifiedHeaders newUrl r
    res.1.request.url = newUrl.getD r.request.url
    ∧ (∀ n, n ∈ removedHeaders → modifiedHeaders.getHeader n = none →
        res.1.request.headers.getHeader n = none)
    ∧ (∀ n v, modifiedHeaders.getHeader n = some v →
        res.1.request.headers.getHeader n = some v)
    ∧ res.1.currentRequestUsesHeaderClient =
        computeUsesHeaderClient f r.networkServiceRequestId
    ∧ (computeUsesHeaderClient f r.networkServiceRequestId = true →
        Action.targetFollowRedirect removedHeaders modifiedHeaders newUrl ∈ res.2)
    ∧ (computeUsesHeaderClient f r.networkServiceRequestId = false →
        res.1.pendingFollowRedirectParams =
          some ⟨removedHeaders, modifiedHeaders, newUrl⟩
        ∧ res.2.all (fun a => !a.isTransportCall) = true)
    ∧ Action.apiOnBeforeRequest ∈ res.2
    ∧ (∀ (r2 : InProgressRequest) (removed2 : List String) (name v : String)
        (p : FollowRedirectParams),
        r2.currentRequestUsesHeaderClient = false →
        r2.pendingFollowRedirectParams = some p →
        r2.targetLoaderBound = true →
        r2.request.headers.getHeader name = some v →
        Action.targetFollowRedirect (p.removedHeaders ++ removed2)
            (p.modifiedHeaders.setHeader name v) p.newUrl
          ∈ (continueToSendHeaders f removed2 [name] netOK r2).2
        ∧ (continueToSendHeaders f removed2 [name] netOK r2).1.pendingFollowRedirectParams
            = none) := by
  have hmode : computeUsesHeaderClient f r.networkServiceRequestId = false := by
    simp [computeUsesHeaderClient]
  refine ⟨?_, ?_, ?_, ?_, ?_, ?_, ?_, ?_⟩
  · cases newUrl <;>
      simp [followRedirect.eq_def, hbound, hmode, updateRequestInfo,
        computeUsesHeaderClient, restartInternal_pending_request, hpending]
  · intro n hn hnone
    have h1 := getHeader_none_forall _ _ hnone
    cases newUrl <;>
      · simp [followRedirect.eq_def, hbound, hmode, updateRequestInfo,
          computeUsesHeaderClient, restartInternal_pending_request, hpending,
          HttpRequestHeaders.mergeFrom]
        rw [getHeader_applySet_notMem _ _ n h1]
        exact getHeader_foldl_remove_mem _ _ n hn
  · intro n v hv
    have hmem := getHeader_some_mem _ _ _ hv
    cases newUrl <;>
      · simp [followRedirect.eq_def, hbound, hmode, updateRequestInfo,
          computeUsesHeaderClient, restartInternal_pending_request, hpending,
          HttpRequestHeaders.mergeFrom]
        exact getHeader_applySet_mem _ _ n v hnodup hmem
  · cases newUrl <;>
      simp [followRedirect.eq_def, hbound, hmode, updateRequestInfo,
        computeUsesHeaderClient, restartInternal_pending_uses, hpending]
  · intro hT
    rw [hmode] at hT
    cases hT
  · intro _
    constructor
    · cases newUrl <;>
        simp [followRedirect.eq_def, hbound, hmode, updateRequestInfo,
          computeUsesHeaderClient, restartInternal_pending_params, hpending]
    · cases newUrl <;>
        simp [followRedirect.eq_def, hbound, hmode, updateRequestInfo,
          computeUsesHeaderClient, restartInternal_pending_acts, hpending,
          Action.isTransportCall]
  · cases newUrl <;>
      simp [followRedirect.eq_def, hbound, hmode, updateRequestInfo,
        computeUsesHeaderClient, restartInternal_pending_acts, hpending]
  · intro r2 removed2 name v p hu hp2 hb2 hv
    constructor
    · simp [continueToSendHeaders, hu, hp2, hb2, hv, netOK,
        resumeProxiedClient_usesHeaderClient]
    · simp [continueToSendHeaders, hu, hp2, hb2, hv, netOK,
        resumeProxiedClient_usesHeaderClient]
      exact (continueToStartRequest_params f _
          (by simp [resumeProxiedClient_usesHeaderClient])).trans
        (by simp [resumeProxiedClient_pendingFollowRedirectParams])

def c8Ctx : FactoryCtx :=
  { ctxQuiet with api := { apiQuiet with beforeRequestResult := netErrIoPending } }

def c8Rec : InProgressRequest :=
  { mkInProgressRequest 7 0 2 reqA with targetLoaderBound := true }

def c8Modified : HttpRequestHeaders := ⟨[("A", "1"), ("B", "2")]⟩

theorem c8_follow_redirect_witness :
    (followRedirect c8Ctx ["X-Test"] c8Modified (some ⟨"http://n/"⟩) c8Rec).1.request.url
      = (some (⟨"http://n/"⟩ : GURL)).getD c8Rec.request.url :=
  (c8_follow_redirect c8Ctx c8Rec ["X-Test"] c8Modified (some ⟨"http://n/"⟩)
    (by decide) (by decide) (by decide)).1

end ElectronNet
